import Mathlib

/-!
Verification of the healthscope controller (src/healthscope/src/main.rs):
a shallow embedding of its pure logic and its effectful operations with an
explicit effect trace, together with theorems checking the specification.

External collaborators (the Kubernetes client, wall-clock time, the RFC3339
parser and printer) are modelled as an explicit environment of functions:
time is measured in whole seconds (matching the seconds granularity of
duration.num_seconds in the source), and parsing a timestamp string either
yields its value in seconds or fails.
-/

namespace Healthscope

/-- Component reference stored in a scope status: fields name, instance_name
and an optional status string, mirroring ComponentInfo from the health scope
schema described in the spec (section 6) and consumed by main.rs. -/
structure ComponentInfo where
  name : String
  instance_name : String
  status : Option String
deriving DecidableEq

/-- Scope status: an optional component list and an optional RFC3339
timestamp string, mirroring HealthStatus. -/
structure HealthStatus where
  components : Option (List ComponentInfo)
  last_aggregate_timestamp : Option String
deriving DecidableEq

/-- Scope spec fields used by main.rs: probe_method, probe_endpoint and the
optional probe_interval in seconds. -/
structure HealthScopeSpec where
  probe_method : String
  probe_endpoint : String
  probe_interval : Option Int
deriving DecidableEq

/-- Object metadata: only the name is used by main.rs. -/
structure Metadata where
  name : String
deriving DecidableEq

/-- A health scope object: metadata, spec and optional status, mirroring
HealthScopeObject. -/
structure HealthScopeObject where
  metadata : Metadata
  spec : HealthScopeSpec
  status : Option HealthStatus
deriving DecidableEq

/-- DEFAULT_PROBE_INTERVAL from main.rs. -/
def DEFAULT_PROBE_INTERVAL : Int := 30

/-- time_to_aggregate from main.rs, the aggregation gate. The chrono parser
is abstracted as a function from timestamp strings to an optional time in
seconds, and the current wall-clock time is an explicit argument in seconds;
duration.num_seconds of signed_duration_since(last) is now - last. -/
def time_to_aggregate (parse : String → Option Int) (now : Int)
    (status : Option HealthStatus) (interval : Int) : Bool :=
  if interval ≤ 0 then
    true
  else
    match status with
    | none => true
    | some st =>
      match st.last_aggregate_timestamp with
      | none => true
      | some ts =>
        match parse ts with
        | none => true
        | some last =>
          if now - last ≥ interval then true else false

end Healthscope

namespace Healthscope

/-- Claim C1: the aggregation gate returns true if and only if the interval
is non-positive, or the status is absent, or its last_aggregate_timestamp is
absent, or the timestamp fails to parse, or now minus the parsed timestamp
is at least the interval in seconds; in all other cases it returns false. -/
theorem time_to_aggregate_iff (parse : String → Option Int) (now : Int)
    (status : Option HealthStatus) (interval : Int) :
    time_to_aggregate parse now status interval = true ↔
      (interval ≤ 0 ∨ status = none ∨
        (∃ st, status = some st ∧ st.last_aggregate_timestamp = none) ∨
        (∃ st ts, status = some st ∧ st.last_aggregate_timestamp = some ts ∧
          parse ts = none) ∨
        (∃ st ts last, status = some st ∧ st.last_aggregate_timestamp = some ts ∧
          parse ts = some last ∧ now - last ≥ interval)) := by
  unfold time_to_aggregate
  rcases status with _ | st
  · by_cases h : interval ≤ 0 <;> simp [h]
  · rcases hts : st.last_aggregate_timestamp with _ | ts
    · by_cases h : interval ≤ 0 <;> simp [h, hts]
    · rcases hp : parse ts with _ | last
      · by_cases h : interval ≤ 0 <;> simp [h, hts, hp]
      · by_cases h : interval ≤ 0
        · simp [h]
        · by_cases hd : now - last ≥ interval <;>
            simp [h, hts, hp, hd]

/-- Modelled from the spec: combine_name comes from the rudr instigator
module, which is not part of the healthscope source tree; the spec (sections
3 and 6) says only that a ComponentInstance is addressed by a deterministic
combination of name and instanceName. We fix one deterministic combination. -/
def combine_name (name : String) (instance_name : String) : String :=
  name ++ "-" ++ instance_name

/-- The external collaborators of the aggregator, passed explicitly: the
RFC3339 parser (seconds), the current wall-clock time in seconds, its
RFC3339 rendering (the string Utc::now().to_rfc3339() would produce),
the client fetch of a ComponentInstance by combined name (outer Option:
request success; inner Option: presence of the status field), and whether
the patch request succeeds. -/
structure Env where
  parse : String → Option Int
  now : Int
  nowRfc : String
  fetchInstance : String → Option (Option String)
  patchOk : Bool

/-- The I/O a call to the aggregator performs, in order: the combined names
of ComponentInstances fetched, and the patch payloads sent to the store. -/
structure AggEffects where
  fetches : List String
  patches : List HealthScopeObject
deriving DecidableEq

/-- Errors the aggregator can return: the unknown probe-method/endpoint
error of main.rs (carrying both strings), or a failed patch request. -/
inductive AggError where
  | unknownProbe (method : String) (endpoint : String)
  | patchFailure
deriving DecidableEq

/-- get_health_from_component from main.rs: fetch the ComponentInstance
under the combined name; a failed request or an absent status field yields
the string unhealthy, otherwise the status field itself. -/
def get_health_from_component (fetch : String → Option (Option String))
    (info : ComponentInfo) : String :=
  match fetch (combine_name info.name info.instance_name) with
  | none => "unhealthy"
  | some st => st.getD "unhealthy"

/-- The in-place refresh loop of aggregate_component_health: every entry of
the component list gets its status overwritten with the fetched live
status. -/
def refresh_components (fetch : String → Option (Option String))
    (comps : List ComponentInfo) : List ComponentInfo :=
  comps.map (fun c => { c with status := some (get_health_from_component fetch c) })

/-- The object aggregate_component_health patches on the supported path:
the event with a brand-new status whose components are the refreshed old
list (if any) and whose last_aggregate_timestamp is now rendered as
RFC3339. -/
def aggregated_event (env : Env) (event : HealthScopeObject) : HealthScopeObject :=
  { event with
    status := some
      { components :=
          (event.status.bind (fun st => st.components)).map
            (refresh_components env.fetchInstance)
        last_aggregate_timestamp := some env.nowRfc } }

/-- aggregate_component_health from main.rs, returning its result together
with the trace of I/O it performed. The gate runs first (no I/O when not
due); then the probe-method/endpoint pair is dispatched: the pair
kube-get/.status refreshes every listed component and patches the object,
propagating a patch failure; any other pair returns the unknown-probe error
without I/O. -/
def aggregate_component_health (env : Env) (event : HealthScopeObject) :
    Except AggError Unit × AggEffects :=
  let interval := event.spec.probe_interval.getD DEFAULT_PROBE_INTERVAL
  if time_to_aggregate env.parse env.now event.status interval = false then
    (Except.ok (), ⟨[], []⟩)
  else
    if (event.spec.probe_method, event.spec.probe_endpoint) = ("kube-get", ".status") then
      let newEvent := aggregated_event env event
      let effects : AggEffects :=
        ⟨((event.status.bind (fun st => st.components)).getD []).map
            (fun c => combine_name c.name c.instance_name),
          [newEvent]⟩
      if env.patchOk then (Except.ok (), effects)
      else (Except.error AggError.patchFailure, effects)
    else
      (Except.error
        (AggError.unknownProbe event.spec.probe_method event.spec.probe_endpoint),
        ⟨[], []⟩)

/-- Replaying a trace of patches against a store keyed by object name: each
patch overwrites the object under its metadata name. -/
def apply_patches (store : String → Option HealthScopeObject)
    (effs : AggEffects) : String → Option HealthScopeObject :=
  effs.patches.foldl
    (fun s e => fun n => if n = e.metadata.name then some e else s n) store

/-- The loop body of request_health in main.rs: the mutable health string
starts healthy and is set to unhealthy by any component whose status is
present and differs from healthy. -/
def health_step (health : String) (c : ComponentInfo) : String :=
  match c.status with
  | some real_status => if real_status ≠ "healthy" then "unhealthy" else health
  | none => health

/-- request_health from main.rs: fetch the scope object by instance name
(the client abstracted as a function returning the object or the textual
error), then fold over status.components starting from healthy; an absent
status or absent component list leaves the accumulator at healthy. -/
def request_health (getScope : String → Except String HealthScopeObject)
    (instance_name : String) : Except String String :=
  match getScope instance_name with
  | Except.error e => Except.error e
  | Except.ok obj =>
    Except.ok
      (match obj.status with
        | none => "healthy"
        | some status =>
          match status.components with
          | none => "healthy"
          | some comps => comps.foldl health_step "healthy")

/-- An HTTP response as the query endpoint produces it: a status code and a
body string. -/
structure HttpResponse where
  status : Nat
  body : String
deriving DecidableEq

/-- The eventual body a HealthFuture resolves to in main.rs: the value of
request_health on success, or the rendered error text on failure, always
wrapped in a 200 response by the future's poll. -/
def health_future_resp (getScope : String → Except String HealthScopeObject)
    (instance_name : String) : String :=
  match request_health getScope instance_name with
  | Except.ok status => status
  | Except.error err => err

/-- serve_health from main.rs: a GET on any path strips the leading slashes
to obtain the instance name and answers 200 with the HealthFuture body; any
other method answers 404 with an empty body. -/
def serve_health (getScope : String → Except String HealthScopeObject)
    (method : String) (path : String) : HttpResponse :=
  if method = "GET" then
    { status := 200
      body := health_future_resp getScope (path.dropWhile (fun ch => ch = '/')) }
  else
    { status := 404, body := "" }

/-- One fold step either keeps the accumulator or yields unhealthy. -/
theorem health_step_cases (h : String) (c : ComponentInfo) :
    health_step h c = h ∨ health_step h c = "unhealthy" := by
  unfold health_step
  rcases c.status with _ | s
  · left; rfl
  · by_cases hs : s = "healthy" <;> simp [hs]

/-- The fold only ever produces its starting accumulator or unhealthy. -/
theorem foldl_health_step_cases (comps : List ComponentInfo) (h : String) :
    comps.foldl health_step h = h ∨ comps.foldl health_step h = "unhealthy" := by
  induction comps generalizing h with
  | nil => left; rfl
  | cons c cs ih =>
    rw [List.foldl_cons]
    rcases health_step_cases h c with h1 | h1 <;> rw [h1]
    · exact ih h
    · rcases ih "unhealthy" with h2 | h2 <;> right <;> exact h2

/-- Unhealthy is absorbing for the fold. -/
theorem foldl_health_step_unhealthy (comps : List ComponentInfo) :
    comps.foldl health_step "unhealthy" = "unhealthy" := by
  rcases foldl_health_step_cases comps "unhealthy" with h | h <;> exact h

/-- A list whose entries all have absent or healthy status leaves the
accumulator unchanged. -/
theorem foldl_health_step_all_healthy (comps : List ComponentInfo) (h : String)
    (hall : ∀ c ∈ comps, c.status = none ∨ c.status = some "healthy") :
    comps.foldl health_step h = h := by
  induction comps generalizing h with
  | nil => rfl
  | cons c cs ih =>
    rw [List.foldl_cons]
    have hc := hall c (by simp)
    have hstep : health_step h c = h := by
      unfold health_step
      rcases hc with hc | hc <;> simp [hc]
    rw [hstep]
    exact ih h (fun d hd => hall d (by simp [hd]))

/-- Any entry with a present status different from healthy drives the fold
to unhealthy from every accumulator. -/
theorem foldl_health_step_bad (comps : List ComponentInfo) (acc : String)
    (c : ComponentInfo) (hc : c ∈ comps) (s : String) (hs : c.status = some s)
    (hne : s ≠ "healthy") :
    comps.foldl health_step acc = "unhealthy" := by
  induction comps generalizing acc with
  | nil => cases hc
  | cons d ds ih =>
    rw [List.foldl_cons]
    rcases List.mem_cons.mp hc with hcd | hmem
    · subst hcd
      have hstep : health_step acc c = "unhealthy" := by
        unfold health_step
        simp [hs, hne]
      rw [hstep]
      exact foldl_health_step_unhealthy ds
    · exact ih (health_step acc d) hmem

/-- A successful request_health only ever answers healthy or unhealthy. -/
theorem request_health_ok_cases (getScope : String → Except String HealthScopeObject)
    (n : String) (obj : HealthScopeObject) (hg : getScope n = Except.ok obj) :
    request_health getScope n = Except.ok "healthy" ∨
    request_health getScope n = Except.ok "unhealthy" := by
  unfold request_health
  rw [hg]
  rcases hst : obj.status with _ | st
  · left; simp [hst]
  · rcases hcs : st.components with _ | comps
    · left; simp [hst, hcs]
    · rcases foldl_health_step_cases comps "healthy" with h | h
      · left; simp [hst, hcs, h]
      · right; simp [hst, hcs, h]

end Healthscope

namespace Healthscope

/-- Claim C6: the query-path fold starts from the accumulator healthy,
treats an absent per-component status as healthy, turns the accumulator
unhealthy on any present status different from healthy, and hence a list
whose present entries are all healthy folds to healthy while any single
present non-healthy entry folds to unhealthy; request_health applies
exactly this fold to the fetched scope's component list. -/
theorem query_fold_correct (comps : List ComponentInfo) :
    ((∀ c ∈ comps, c.status = none ∨ c.status = some "healthy") →
      comps.foldl health_step "healthy" = "healthy") ∧
    (∀ c ∈ comps, ∀ s, c.status = some s → s ≠ "healthy" →
      comps.foldl health_step "healthy" = "unhealthy") ∧
    (∀ h : String, ∀ c : ComponentInfo, ∀ s, c.status = some s → s ≠ "healthy" →
      health_step h c = "unhealthy") ∧
    (∀ h : String, ∀ c : ComponentInfo, c.status = none → health_step h c = h) ∧
    (∀ getScope : String → Except String HealthScopeObject,
      ∀ n : String, ∀ obj : HealthScopeObject, ∀ st : HealthStatus,
      getScope n = Except.ok obj → obj.status = some st →
      st.components = some comps →
      request_health getScope n = Except.ok (comps.foldl health_step "healthy")) := by
  refine ⟨fun hall => foldl_health_step_all_healthy comps "healthy" hall,
    fun c hc s hs hne => foldl_health_step_bad comps "healthy" c hc s hs hne,
    fun h c s hs hne => by unfold health_step; simp [hs, hne],
    fun h c hnone => by unfold health_step; simp [hnone],
    fun getScope n obj st hok hst hcs => by
      unfold request_health
      rw [hok]
      simp [hst, hcs]⟩

/-- Witness for C6 on concrete lists: an all-healthy list folds to healthy
and a list with one broken entry folds to unhealthy. -/
theorem query_fold_correct_witness :
    ([⟨"a", "i", some "healthy"⟩, ⟨"b", "j", none⟩] : List ComponentInfo).foldl
        health_step "healthy" = "healthy" ∧
    ([⟨"a", "i", some "healthy"⟩, ⟨"b", "j", some "broken"⟩] : List ComponentInfo).foldl
        health_step "healthy" = "unhealthy" :=
  ⟨(query_fold_correct [⟨"a", "i", some "healthy"⟩, ⟨"b", "j", none⟩]).1 (by decide),
   (query_fold_correct [⟨"a", "i", some "healthy"⟩, ⟨"b", "j", some "broken"⟩]).2.1
     ⟨"b", "j", some "broken"⟩ (by decide) "broken" rfl (by decide)⟩

/-- Claim C7: a GET on any path answers 200 with body healthy, unhealthy,
or the textual error of the scope fetch, and any other method answers 404
with an empty body. -/
theorem serve_health_responses (getScope : String → Except String HealthScopeObject)
    (method : String) (path : String) :
    (method = "GET" →
      (serve_health getScope method path).status = 200 ∧
      ((serve_health getScope method path).body = "healthy" ∨
        (serve_health getScope method path).body = "unhealthy" ∨
        ∃ e, getScope (path.dropWhile (fun ch => ch = '/')) = Except.error e ∧
          (serve_health getScope method path).body = e)) ∧
    (method ≠ "GET" →
      (serve_health getScope method path).status = 404 ∧
      (serve_health getScope method path).body = "") := by
  constructor
  · intro hm
    subst hm
    refine ⟨by simp [serve_health], ?_⟩
    have hbody : (serve_health getScope "GET" path).body =
        health_future_resp getScope (path.dropWhile (fun ch => ch = '/')) := by
      simp [serve_health]
    rw [hbody]
    rcases hg : getScope (path.dropWhile (fun ch => ch = '/')) with e | obj
    · right; right
      refine ⟨e, rfl, ?_⟩
      unfold health_future_resp request_health
      rw [hg]
    · rcases request_health_ok_cases getScope _ obj hg with h | h
      · left
        unfold health_future_resp
        rw [h]
      · right; left
        unfold health_future_resp
        rw [h]
  · intro hm
    exact ⟨by simp [serve_health, hm], by simp [serve_health, hm]⟩

/-- Witness for C7: a concrete GET whose fetch fails still answers 200, and
a concrete PUT answers 404 with an empty body. -/
theorem serve_health_responses_witness :
    (serve_health (fun _ => Except.error "boom") "GET" "/s1").status = 200 ∧
    (serve_health (fun _ => Except.error "boom") "PUT" "/s1").status = 404 ∧
    (serve_health (fun _ => Except.error "boom") "PUT" "/s1").body = "" :=
  ⟨((serve_health_responses (fun _ => Except.error "boom") "GET" "/s1").1 rfl).1,
   ((serve_health_responses (fun _ => Except.error "boom") "PUT" "/s1").2 (by decide)).1,
   ((serve_health_responses (fun _ => Except.error "boom") "PUT" "/s1").2 (by decide)).2⟩

/-- Claim C10: when the scope fetch succeeds but the object has no status,
or a status with no component list, the query answers healthy. -/
theorem empty_scope_query_healthy (getScope : String → Except String HealthScopeObject)
    (n : String) (obj : HealthScopeObject)
    (hok : getScope n = Except.ok obj)
    (h : obj.status = none ∨ ∃ st, obj.status = some st ∧ st.components = none) :
    request_health getScope n = Except.ok "healthy" := by
  unfold request_health
  rw [hok]
  rcases h with h | ⟨st, h1, h2⟩
  · simp [h]
  · simp [h1, h2]

/-- Witness for C10: a concrete never-aggregated scope answers healthy. -/
theorem empty_scope_query_healthy_witness :
    request_health
      (fun _ => Except.ok ⟨⟨"s"⟩, ⟨"kube-get", ".status", none⟩, none⟩) "s" =
      Except.ok "healthy" :=
  empty_scope_query_healthy
    (fun _ => Except.ok ⟨⟨"s"⟩, ⟨"kube-get", ".status", none⟩, none⟩) "s"
    ⟨⟨"s"⟩, ⟨"kube-get", ".status", none⟩, none⟩ rfl (Or.inl rfl)

/-- Evaluation of the aggregator on the not-due path. -/
theorem aggregate_not_due (env : Env) (event : HealthScopeObject)
    (hg : time_to_aggregate env.parse env.now event.status
      (event.spec.probe_interval.getD DEFAULT_PROBE_INTERVAL) = false) :
    aggregate_component_health env event = (Except.ok (), ⟨[], []⟩) := by
  unfold aggregate_component_health
  simp [hg]

/-- Evaluation of the aggregator on the supported probe path. -/
theorem aggregate_supported (env : Env) (event : HealthScopeObject)
    (hm : event.spec.probe_method = "kube-get")
    (he : event.spec.probe_endpoint = ".status")
    (hg : time_to_aggregate env.parse env.now event.status
      (event.spec.probe_interval.getD DEFAULT_PROBE_INTERVAL) = true) :
    aggregate_component_health env event =
      (if env.patchOk then Except.ok () else Except.error AggError.patchFailure,
        ⟨((event.status.bind (fun st => st.components)).getD []).map
            (fun c => combine_name c.name c.instance_name),
          [aggregated_event env event]⟩) := by
  unfold aggregate_component_health
  simp [hg, hm, he]
  by_cases hp : env.patchOk <;> simp [hp]

/-- Evaluation of the aggregator on an unrecognized probe pair. -/
theorem aggregate_unsupported (env : Env) (event : HealthScopeObject)
    (hne : (event.spec.probe_method, event.spec.probe_endpoint) ≠ ("kube-get", ".status"))
    (hg : time_to_aggregate env.parse env.now event.status
      (event.spec.probe_interval.getD DEFAULT_PROBE_INTERVAL) = true) :
    aggregate_component_health env event =
      (Except.error
        (AggError.unknownProbe event.spec.probe_method event.spec.probe_endpoint),
        ⟨[], []⟩) := by
  unfold aggregate_component_health
  simp [hg, hne]

/-- Refreshing a component list twice against the same fetch function is the
same as refreshing it once: the fetched status depends only on the names,
which a refresh preserves. -/
theorem refresh_refresh (fetch : String → Option (Option String))
    (comps : List ComponentInfo) :
    refresh_components fetch (refresh_components fetch comps) =
      refresh_components fetch comps := by
  simp only [refresh_components, List.map_map]
  rfl

/-- The optional-list version of the refresh idempotence. -/
theorem option_refresh_idem (fetch : String → Option (Option String))
    (o : Option (List ComponentInfo)) :
    (o.map (refresh_components fetch)).map (refresh_components fetch) =
      o.map (refresh_components fetch) := by
  rcases o with _ | l
  · rfl
  · exact congrArg some (refresh_refresh fetch l)

end Healthscope

namespace Healthscope

/-- A concrete quiet scenario: everything parses to time zero and the last
aggregation is recent, so the gate is closed. -/
def envQuiet : Env :=
  ⟨fun _ => some 0, 0, "1970-01-01T00:00:00+00:00", fun _ => none, true⟩

/-- A scope already aggregated at the quiet scenario's current time. -/
def eventQuiet : HealthScopeObject :=
  ⟨⟨"s1"⟩, ⟨"kube-get", ".status", none⟩, some ⟨none, some "t"⟩⟩

/-- Claim C3: when the gate says not due, the aggregator returns success
with no component fetch and no patch, and replaying its (empty) patch trace
leaves any store unchanged. -/
theorem gate_false_no_io (env : Env) (event : HealthScopeObject)
    (store : String → Option HealthScopeObject)
    (hg : time_to_aggregate env.parse env.now event.status
      (event.spec.probe_interval.getD DEFAULT_PROBE_INTERVAL) = false) :
    (aggregate_component_health env event).1 = Except.ok () ∧
    (aggregate_component_health env event).2.fetches = [] ∧
    (aggregate_component_health env event).2.patches = [] ∧
    apply_patches store (aggregate_component_health env event).2 = store := by
  rw [aggregate_not_due env event hg]
  exact ⟨rfl, rfl, rfl, rfl⟩

/-- Witness for C3: the quiet scenario is not due and performs no I/O. -/
theorem gate_false_no_io_witness :
    (aggregate_component_health envQuiet eventQuiet).1 = Except.ok () ∧
    (aggregate_component_health envQuiet eventQuiet).2.patches = [] :=
  ⟨(gate_false_no_io envQuiet eventQuiet (fun _ => none) (by decide)).1,
   (gate_false_no_io envQuiet eventQuiet (fun _ => none) (by decide)).2.2.1⟩

/-- A concrete environment for the probe-pair scenarios: nothing parses, so
every scope is due; both fetches would succeed; the patch succeeds. -/
def envProbe : Env :=
  ⟨fun _ => none, 0, "2020-01-01T00:00:00+00:00", fun _ => none, true⟩

/-- A due scope declaring the probe pair the code supports. -/
def eventKubeGet : HealthScopeObject :=
  ⟨⟨"s"⟩, ⟨"kube-get", ".status", some 10⟩, none⟩

/-- A due scope declaring the probe pair the specification names. -/
def eventPollStatus : HealthScopeObject :=
  ⟨⟨"s"⟩, ⟨"poll-status", ".status", some 10⟩, none⟩

/-- Counterexample to C2 as stated: the pair kube-get/.status differs from
poll-status/.status yet the aggregator succeeds and issues a patch for it,
while the pair poll-status/.status itself is rejected with the
unknown-probe error. The single supported pair in the code is
kube-get/.status, not poll-status/.status. -/
theorem unsupported_probe_pair_counterexample :
    (("kube-get", ".status") ≠ (("poll-status", ".status") : String × String)) ∧
    (aggregate_component_health envProbe eventKubeGet).1 = Except.ok () ∧
    (aggregate_component_health envProbe eventKubeGet).2.patches ≠ [] ∧
    (aggregate_component_health envProbe eventPollStatus).1 =
      Except.error (AggError.unknownProbe "poll-status" ".status") :=
  ⟨by decide, rfl, by decide, rfl⟩

/-- Claim C2 amended: for every due scope whose probe pair is anything
other than kube-get/.status, the aggregator returns the unknown-probe error
naming the method and endpoint, fetches nothing and patches nothing, so the
stored state is unchanged. -/
theorem unsupported_probe_amended (env : Env) (event : HealthScopeObject)
    (store : String → Option HealthScopeObject)
    (hne : (event.spec.probe_method, event.spec.probe_endpoint) ≠ ("kube-get", ".status"))
    (hg : time_to_aggregate env.parse env.now event.status
      (event.spec.probe_interval.getD DEFAULT_PROBE_INTERVAL) = true) :
    (aggregate_component_health env event).1 =
      Except.error
        (AggError.unknownProbe event.spec.probe_method event.spec.probe_endpoint) ∧
    (aggregate_component_health env event).2.fetches = [] ∧
    (aggregate_component_health env event).2.patches = [] ∧
    apply_patches store (aggregate_component_health env event).2 = store := by
  rw [aggregate_unsupported env event hne hg]
  exact ⟨rfl, rfl, rfl, rfl⟩

/-- Witness for the amended C2 at the concrete poll-status scope. -/
theorem unsupported_probe_amended_witness :
    (aggregate_component_health envProbe eventPollStatus).1 =
      Except.error
        (AggError.unknownProbe eventPollStatus.spec.probe_method
          eventPollStatus.spec.probe_endpoint) ∧
    (aggregate_component_health envProbe eventPollStatus).2.patches = [] :=
  ⟨(unsupported_probe_amended envProbe eventPollStatus (fun _ => none)
      (by decide) (by decide)).1,
   (unsupported_probe_amended envProbe eventPollStatus (fun _ => none)
      (by decide) (by decide)).2.2.1⟩

/-- Claim C4: on the supported path the aggregator patches a status whose
component list is the old list with every entry's status overwritten by the
live status fetched under the combined name, fetching each listed entry in
order; a failed fetch or an absent status field on the instance becomes
unhealthy, and a present status field is taken as is. -/
theorem supported_path_refreshes_components (env : Env) (event : HealthScopeObject)
    (st : HealthStatus) (comps : List ComponentInfo)
    (hst : event.status = some st) (hc : st.components = some comps)
    (hm : event.spec.probe_method = "kube-get")
    (he : event.spec.probe_endpoint = ".status")
    (hg : time_to_aggregate env.parse env.now event.status
      (event.spec.probe_interval.getD DEFAULT_PROBE_INTERVAL) = true) :
    (aggregate_component_health env event).2.patches =
      [{ event with
          status := some
            { components := some (comps.map (fun c =>
                { c with status := some (get_health_from_component env.fetchInstance c) })),
              last_aggregate_timestamp := some env.nowRfc } }] ∧
    (aggregate_component_health env event).2.fetches =
      comps.map (fun c => combine_name c.name c.instance_name) ∧
    (∀ c : ComponentInfo,
      env.fetchInstance (combine_name c.name c.instance_name) = none →
      get_health_from_component env.fetchInstance c = "unhealthy") ∧
    (∀ c : ComponentInfo,
      env.fetchInstance (combine_name c.name c.instance_name) = some none →
      get_health_from_component env.fetchInstance c = "unhealthy") ∧
    (∀ c : ComponentInfo, ∀ s : String,
      env.fetchInstance (combine_name c.name c.instance_name) = some (some s) →
      get_health_from_component env.fetchInstance c = s) := by
  rw [aggregate_supported env event hm he hg]
  refine ⟨?_, ?_, ?_, ?_, ?_⟩
  · show [aggregated_event env event] = _
    unfold aggregated_event refresh_components
    rw [hst]
    simp [hc]
  · show ((event.status.bind (fun s => s.components)).getD []).map _ = _
    rw [hst]
    simp [hc]
  · intro c hf
    unfold get_health_from_component
    rw [hf]
  · intro c hf
    unfold get_health_from_component
    rw [hf]
    rfl
  · intro c s hf
    unfold get_health_from_component
    rw [hf]
    rfl

/-- A concrete supported-path scenario: one listed component, every fetch
answers a healthy instance, the patch succeeds. -/
def envSim : Env :=
  ⟨fun _ => none, 0, "2020-06-01T00:00:00+00:00",
   fun _ => some (some "healthy"), true⟩

/-- A due scope listing a single component with no recorded status. -/
def eventSim : HealthScopeObject :=
  ⟨⟨"sim"⟩, ⟨"kube-get", ".status", some 10⟩,
   some ⟨some [⟨"a", "i", none⟩], none⟩⟩

/-- Witness for C4: the fetch trace of the concrete scenario is the
combined name of its single listed component. -/
theorem supported_path_refreshes_components_witness :
    (aggregate_component_health envSim eventSim).2.fetches =
      ([⟨"a", "i", none⟩] : List ComponentInfo).map
        (fun c => combine_name c.name c.instance_name) :=
  (supported_path_refreshes_components envSim eventSim
    ⟨some [⟨"a", "i", none⟩], none⟩ [⟨"a", "i", none⟩]
    rfl rfl rfl rfl (by decide)).2.1

/-- Claim C5: on the supported path the aggregator issues exactly one patch
whose payload is the event carrying a brand-new status (refreshed component
list, last_aggregate_timestamp set to the RFC3339 rendering of now); a
successful patch yields success and a failed patch surfaces the failure to
the caller. -/
theorem supported_path_patch_payload (env : Env) (event : HealthScopeObject)
    (hm : event.spec.probe_method = "kube-get")
    (he : event.spec.probe_endpoint = ".status")
    (hg : time_to_aggregate env.parse env.now event.status
      (event.spec.probe_interval.getD DEFAULT_PROBE_INTERVAL) = true) :
    (aggregate_component_health env event).2.patches = [aggregated_event env event] ∧
    (aggregated_event env event).status = some
      { components := (event.status.bind (fun st => st.components)).map
          (refresh_components env.fetchInstance),
        last_aggregate_timestamp := some env.nowRfc } ∧
    (env.patchOk = true → (aggregate_component_health env event).1 = Except.ok ()) ∧
    (env.patchOk = false →
      (aggregate_component_health env event).1 = Except.error AggError.patchFailure) ∧
    (aggregate_component_health env event).2.patches.length = 1 := by
  rw [aggregate_supported env event hm he hg]
  refine ⟨rfl, rfl, ?_, ?_, rfl⟩ <;> intro hp <;> simp [hp]

/-- Witness for C5: the concrete scenario patches exactly its aggregated
event. -/
theorem supported_path_patch_payload_witness :
    (aggregate_component_health envSim eventSim).2.patches =
      [aggregated_event envSim eventSim] :=
  (supported_path_patch_payload envSim eventSim rfl rfl (by decide)).1

/-- Claim C8: aggregation is idempotent when component states do not
change: running the aggregator again on the object the first run patched,
against the same fetch function, patches an object with the same component
verdicts, the two runs differing only in the timestamp each wrote. -/
theorem aggregate_idempotent (env1 env2 : Env) (event : HealthScopeObject)
    (hfetch : env2.fetchInstance = env1.fetchInstance)
    (hm : event.spec.probe_method = "kube-get")
    (he : event.spec.probe_endpoint = ".status")
    (hg1 : time_to_aggregate env1.parse env1.now event.status
      (event.spec.probe_interval.getD DEFAULT_PROBE_INTERVAL) = true)
    (hg2 : time_to_aggregate env2.parse env2.now (aggregated_event env1 event).status
      ((aggregated_event env1 event).spec.probe_interval.getD DEFAULT_PROBE_INTERVAL) = true) :
    (aggregate_component_health env1 event).2.patches = [aggregated_event env1 event] ∧
    (aggregate_component_health env2 (aggregated_event env1 event)).2.patches =
      [aggregated_event env2 (aggregated_event env1 event)] ∧
    (aggregated_event env2 (aggregated_event env1 event)).status.bind
        (fun s => s.components) =
      (aggregated_event env1 event).status.bind (fun s => s.components) ∧
    (aggregated_event env1 event).status.bind (fun s => s.last_aggregate_timestamp) =
      some env1.nowRfc ∧
    (aggregated_event env2 (aggregated_event env1 event)).status.bind
        (fun s => s.last_aggregate_timestamp) =
      some env2.nowRfc := by
  refine ⟨?_, ?_, ?_, rfl, rfl⟩
  · rw [aggregate_supported env1 event hm he hg1]
  · rw [aggregate_supported env2 (aggregated_event env1 event) hm he hg2]
  · show ((event.status.bind (fun s => s.components)).map
        (refresh_components env1.fetchInstance)).map
        (refresh_components env2.fetchInstance) =
      (event.status.bind (fun s => s.components)).map
        (refresh_components env1.fetchInstance)
    rw [hfetch]
    exact option_refresh_idem env1.fetchInstance _

/-- Witness for C8: running the concrete scenario twice patches the same
component verdicts both times. -/
theorem aggregate_idempotent_witness :
    (aggregate_component_health envSim (aggregated_event envSim eventSim)).2.patches =
      [aggregated_event envSim (aggregated_event envSim eventSim)] ∧
    (aggregated_event envSim (aggregated_event envSim eventSim)).status.bind
        (fun s => s.components) =
      (aggregated_event envSim eventSim).status.bind (fun s => s.components) :=
  ⟨(aggregate_idempotent envSim envSim eventSim rfl rfl rfl (by decide) (by decide)).2.1,
   (aggregate_idempotent envSim envSim eventSim rfl rfl rfl (by decide) (by decide)).2.2.1⟩

end Healthscope

namespace Healthscope

/-- The end-to-end environment: nothing parses (so every scope is due), the
instance under the combined name of a/inst1 is healthy and the one under
b/inst2 is unhealthy, and the patch succeeds. -/
def envC9 : Env :=
  ⟨fun _ => none, 0, "2020-05-01T00:00:00+00:00",
   fun key =>
     if key = combine_name "a" "inst1" then some (some "healthy")
     else if key = combine_name "b" "inst2" then some (some "unhealthy")
     else none,
   true⟩

/-- The scope of the end-to-end scenario exactly as claim C9 states it:
probe interval 10 and no prior status at all. -/
def eventC9 : HealthScopeObject :=
  ⟨⟨"s1"⟩, ⟨"kube-get", ".status", some 10⟩, none⟩

/-- The store after the aggregation pass on the no-prior-status scope: the
fetched object under s1 is the patched one. -/
def storeAfterC9 : String → Except String HealthScopeObject :=
  fun n =>
    if n = "s1" then Except.ok (aggregated_event envC9 eventC9)
    else Except.error "not found"

/-- Counterexample to C9 as stated: with no prior status the aggregator has
no component list to walk, so the single pass patches a status whose
component list is absent (not populated with the two entries) and the
subsequent query answers healthy, not unhealthy. -/
theorem no_prior_status_counterexample :
    (aggregate_component_health envC9 eventC9).2.patches =
      [{ eventC9 with status := some ⟨none, some "2020-05-01T00:00:00+00:00"⟩ }] ∧
    request_health storeAfterC9 "s1" = Except.ok "healthy" :=
  ⟨by decide, rfl⟩

/-- The scope of the end-to-end scenario amended: the two component
references are listed in a prior status (with no recorded statuses and no
timestamp), which is where the aggregator reads them from. -/
def eventC9Listed : HealthScopeObject :=
  ⟨⟨"s1"⟩, ⟨"kube-get", ".status", some 10⟩,
   some ⟨some [⟨"a", "inst1", none⟩, ⟨"b", "inst2", none⟩], none⟩⟩

/-- The store after the aggregation pass on the amended scope. -/
def storeAfterC9Listed : String → Except String HealthScopeObject :=
  fun n =>
    if n = "s1" then Except.ok (aggregated_event envC9 eventC9Listed)
    else Except.error "not found"

/-- Claim C9 amended: for the scope s1 with probe interval 10 whose prior
status lists the component references a/inst1 and b/inst2, a single
aggregation pass succeeds, patches both entries populated with the live
statuses healthy and unhealthy and the timestamp set to the aggregation
time, and a subsequent query for s1 answers unhealthy. -/
theorem end_to_end_amended :
    (aggregate_component_health envC9 eventC9Listed).1 = Except.ok () ∧
    (aggregate_component_health envC9 eventC9Listed).2.patches =
      [{ eventC9Listed with
          status := some ⟨some [⟨"a", "inst1", some "healthy"⟩,
            ⟨"b", "inst2", some "unhealthy"⟩], some "2020-05-01T00:00:00+00:00"⟩ }] ∧
    request_health storeAfterC9Listed "s1" = Except.ok "unhealthy" :=
  ⟨rfl, by decide, rfl⟩

end Healthscope
